import Mathlib

/-!
Verification development for the goatflow SDK (`goatflow_sdk`).

The data-model layer (`models.py`) is embedded as schemas over a JSON-like
value universe, with the validation semantics pydantic gives the models'
configuration (`extra="forbid"`, `validate_assignment=True`, required =
no default).  Components whose implementation files are not part of the
sources (the exception taxonomy, the authentication strategies, the
request pipeline, the list operation) are modelled from the specification
and marked as such in their doc comments.
-/

namespace Goatflow

/-- A JSON-like value, the payloads the SDK decodes and encodes. -/
inductive JValue where
  | jNull : JValue
  | jBool : Bool → JValue
  | jInt : Int → JValue
  | jStr : String → JValue
  | jList : List JValue → JValue
  | jDict : List (String × JValue) → JValue
  deriving Repr

/-- Field types occurring in the pydantic model declarations of
`models.py`: `int`, `str`, `str` with `min_length` (pydantic
`Field(min_length=n)`), `bool`, `datetime`, `Any`, `Optional[t]`,
`List[t]`, `Dict[str, t]`, and nested models. -/
inductive FieldTy where
  | tInt : FieldTy
  | tStr : FieldTy
  | tStrMin : Nat → FieldTy
  | tBool : FieldTy
  | tDatetime : FieldTy
  | tAny : FieldTy
  | tOpt : FieldTy → FieldTy
  | tList : FieldTy → FieldTy
  | tDict : FieldTy → FieldTy
  | tObj : List (String × FieldTy × Bool) → FieldTy
  deriving Repr

/-- Dictionary lookup, first match (Python dict keys are unique). -/
def lookupField (kvs : List (String × JValue)) (name : String) : Option JValue :=
  match kvs with
  | [] => none
  | (k, v) :: rest => if k = name then some v else lookupField rest name

/-- Canonical ISO-8601 timestamp shape `YYYY-MM-DDTHH:MM:SS`; stands in
for pydantic's datetime parsing, which is delegated to the validation
library and only its contract is specified. -/
def isIsoDatetime (s : String) : Bool :=
  match s.toList with
  | [y1, y2, y3, y4, d1, m1, m2, d2, d3, d4, t1, h1, h2, c1, n1, n2, c2, s1, s2] =>
      y1.isDigit && y2.isDigit && y3.isDigit && y4.isDigit && (d1 == '-') &&
      m1.isDigit && m2.isDigit && (d2 == '-') && d3.isDigit && d4.isDigit &&
      (t1 == 'T') && h1.isDigit && h2.isDigit && (c1 == ':') &&
      n1.isDigit && n2.isDigit && (c2 == ':') && s1.isDigit && s2.isDigit
  | _ => false

/-- Whether `name` is a declared field of the schema. -/
def declaredField (fs : List (String × FieldTy × Bool)) (name : String) : Bool :=
  fs.any (fun f => f.1 == name)

/-- `extra="forbid"`: every payload key must be a declared field. -/
def extraOk (fs : List (String × FieldTy × Bool)) (kvs : List (String × JValue)) : Bool :=
  kvs.all (fun kv => declaredField fs kv.1)

/-- Type check of a value against a field type, fuelled: the fuel only
bounds descent through the type (one unit per type layer; list and
dictionary elements are traversed without consuming fuel), so any fuel
of at least the type's size is enough and the result is
fuel-independent from there on. -/
def checkTyF : Nat → FieldTy → JValue → Bool
  | 0, _, _ => false
  | fuel + 1, t0, v0 =>
      match t0, v0 with
      | .tInt, .jInt _ => true
      | .tStr, .jStr _ => true
      | .tStrMin n, .jStr s => decide (n ≤ s.length)
      | .tBool, .jBool _ => true
      | .tDatetime, .jStr s => isIsoDatetime s
      | .tAny, _ => true
      | .tOpt _, .jNull => true
      | .tOpt t, v => checkTyF fuel t v
      | .tList t, .jList xs => xs.all (fun v => checkTyF fuel t v)
      | .tDict t, .jDict kvs => kvs.all (fun kv => checkTyF fuel t kv.2)
      | .tObj fs, .jDict kvs =>
          extraOk fs kvs && fs.all (fun f =>
            match lookupField kvs f.1 with
            | some v => checkTyF fuel f.2.1 v
            | none => !f.2.2)
      | _, _ => false

mutual

/-- Size of a field type: strictly exceeds its nesting depth. -/
def tySize : FieldTy → Nat
  | .tOpt t => tySize t + 1
  | .tList t => tySize t + 1
  | .tDict t => tySize t + 1
  | .tObj fs => tyListSize fs + 1
  | _ => 1

/-- Combined size of a schema's field types. -/
def tyListSize : List (String × FieldTy × Bool) → Nat
  | [] => 1
  | f :: rest => tySize f.2.1 + tyListSize rest + 1

end

/-- Type check of a value against a field type (pydantic validation of a
single field).  `tySize t` strictly exceeds the type's nesting depth,
so the fuel never runs out. -/
def checkTy (t : FieldTy) (v : JValue) : Bool :=
  checkTyF (tySize t) t v

/-- Per-field validation: a present field must type-check, an absent
field is allowed only if it is not required (it then takes its default). -/
def checkObjFields (fs : List (String × FieldTy × Bool))
    (kvs : List (String × JValue)) : Bool :=
  fs.all (fun f =>
    match lookupField kvs f.1 with
    | some v => checkTy f.2.1 v
    | none => !f.2.2)

/-- Full model validation: no unknown keys (`extra="forbid"`), every
declared field present-and-typed or absent-and-optional. -/
def validateModel (fs : List (String × FieldTy × Bool))
    (kvs : List (String × JValue)) : Bool :=
  extraOk fs kvs && checkObjFields fs kvs

/-- Modelled from the spec: the error taxonomy of §7.  The exception
classes live in `exceptions.py`, which is not among the sources; only
their declarations appear in the package exports. -/
inductive GFError where
  | validationError : String → GFError
  | networkError : String → GFError
  | timeoutError : GFError
  | unauthorizedError : GFError
  | forbiddenError : GFError
  | notFoundError : GFError
  | rateLimitError : Option Nat → GFError
  | goatflowError : Nat → String → GFError
  deriving Repr, DecidableEq

/-- Constructing a model instance: pydantic validates the payload against
the declared fields and either returns the validated data or raises
`ValidationError` — no third outcome. -/
def constructModel (fs : List (String × FieldTy × Bool))
    (kvs : List (String × JValue)) : Except GFError (List (String × JValue)) :=
  if validateModel fs kvs then .ok kvs
  else .error (.validationError "payload failed model validation")

/-- Schema of `User` (`models.py`): every field required. -/
def userFields : List (String × FieldTy × Bool) :=
  [("id", .tInt, true), ("email", .tStr, true), ("first_name", .tStr, true),
   ("last_name", .tStr, true), ("login", .tStr, true), ("title", .tStr, true),
   ("role", .tStr, true), ("is_active", .tBool, true),
   ("created_at", .tDatetime, true), ("updated_at", .tDatetime, true),
   ("last_login_at", .tDatetime, true)]

/-- Schema of `Queue` (`models.py`). -/
def queueFields : List (String × FieldTy × Bool) :=
  [("id", .tInt, true), ("name", .tStr, true), ("description", .tStr, true),
   ("is_active", .tBool, true), ("created_at", .tDatetime, true),
   ("updated_at", .tDatetime, true)]

/-- Schema of `Attachment` (`models.py`). -/
def attachmentFields : List (String × FieldTy × Bool) :=
  [("id", .tInt, true), ("filename", .tStr, true), ("content_type", .tStr, true),
   ("size", .tInt, true), ("ticket_id", .tInt, true),
   ("message_id", .tOpt .tInt, false), ("uploaded_by", .tInt, true),
   ("created_at", .tDatetime, true)]

/-- Schema of `TicketMessage` (`models.py`). -/
def ticketMessageFields : List (String × FieldTy × Bool) :=
  [("id", .tInt, true), ("ticket_id", .tInt, true), ("content", .tStr, true),
   ("message_type", .tStr, true), ("is_internal", .tBool, true),
   ("author_id", .tInt, true), ("created_at", .tDatetime, true),
   ("updated_at", .tDatetime, true), ("author", .tOpt (.tObj userFields), false),
   ("attachments", .tOpt (.tList (.tObj attachmentFields)), false),
   ("custom_fields", .tOpt (.tDict .tAny), false)]

/-- Schema of `Ticket` (`models.py`). -/
def ticketFields : List (String × FieldTy × Bool) :=
  [("id", .tInt, true), ("ticket_number", .tStr, true), ("title", .tStr, true),
   ("description", .tStr, true), ("status", .tStr, true),
   ("priority", .tStr, true), ("type", .tStr, true), ("queue_id", .tInt, true),
   ("customer_id", .tInt, true), ("assigned_to", .tOpt .tInt, false),
   ("created_at", .tDatetime, true), ("updated_at", .tDatetime, true),
   ("closed_at", .tOpt .tDatetime, false),
   ("tags", .tOpt (.tList .tStr), false),
   ("custom_fields", .tOpt (.tDict .tAny), false),
   ("customer", .tOpt (.tObj userFields), false),
   ("assigned_user", .tOpt (.tObj userFields), false),
   ("queue", .tOpt (.tObj queueFields), false),
   ("messages", .tOpt (.tList (.tObj ticketMessageFields)), false),
   ("attachments", .tOpt (.tList (.tObj attachmentFields)), false)]

/-- Schema of `Webhook` (`models.py`). -/
def webhookFields : List (String × FieldTy × Bool) :=
  [("id", .tInt, true), ("name", .tStr, true), ("url", .tStr, true),
   ("events", .tList .tStr, true), ("secret", .tOpt .tStr, false),
   ("is_active", .tBool, true), ("retry_count", .tInt, true),
   ("timeout", .tInt, true), ("headers", .tOpt (.tDict .tStr), false),
   ("created_at", .tDatetime, true), ("updated_at", .tDatetime, true),
   ("last_fired_at", .tOpt .tDatetime, false)]

/-- Schema of `InternalNote` (`models.py`): every field required. -/
def internalNoteFields : List (String × FieldTy × Bool) :=
  [("id", .tInt, true), ("ticket_id", .tInt, true), ("content", .tStr, true),
   ("category", .tStr, true), ("is_important", .tBool, true),
   ("is_pinned", .tBool, true), ("tags", .tList .tStr, true),
   ("author_id", .tInt, true), ("author_name", .tStr, true),
   ("author_email", .tStr, true), ("created_at", .tDatetime, true),
   ("updated_at", .tDatetime, true), ("edited_at", .tDatetime, true),
   ("edited_by", .tInt, true)]

/-- Schema of `TicketCreateRequest` (`models.py`): `title` and
`description` required; `priority` defaults to `"normal"`, `type` to
`"incident"`, the rest to `None`. -/
def ticketCreateRequestFields : List (String × FieldTy × Bool) :=
  [("title", .tStr, true), ("description", .tStr, true),
   ("priority", .tOpt .tStr, false), ("type", .tOpt .tStr, false),
   ("queue_id", .tOpt .tInt, false), ("customer_id", .tOpt .tInt, false),
   ("assigned_to", .tOpt .tInt, false), ("tags", .tOpt (.tList .tStr), false),
   ("custom_fields", .tOpt (.tDict .tAny), false)]

/-- Schema of `UserCreateRequest` (`models.py`): `email`, `first_name`,
`last_name`, `login`, `password` required; `password` carries
`Field(min_length=8)`; `title` defaults to `""`, `role` to `"user"`. -/
def userCreateRequestFields : List (String × FieldTy × Bool) :=
  [("email", .tStr, true), ("first_name", .tStr, true),
   ("last_name", .tStr, true), ("login", .tStr, true),
   ("title", .tOpt .tStr, false), ("role", .tOpt .tStr, false),
   ("password", .tStrMin 8, true)]

/-- The Resource Record schemas named by the spec's validation property. -/
def resourceSchemas : List (List (String × FieldTy × Bool)) :=
  [ticketFields, userFields, queueFields, attachmentFields, webhookFields,
   internalNoteFields]

/-- `User` record (`models.py`); validated datetimes are kept as their
ISO string. -/
structure User where
  id : Int
  email : String
  first_name : String
  last_name : String
  login : String
  title : String
  role : String
  is_active : Bool
  created_at : String
  updated_at : String
  last_login_at : String
  deriving Repr, DecidableEq

/-- `Queue` record (`models.py`). -/
structure Queue where
  id : Int
  name : String
  description : String
  is_active : Bool
  created_at : String
  updated_at : String
  deriving Repr, DecidableEq

/-- `Attachment` record (`models.py`). -/
structure Attachment where
  id : Int
  filename : String
  content_type : String
  size : Int
  ticket_id : Int
  message_id : Option Int
  uploaded_by : Int
  created_at : String
  deriving Repr, DecidableEq

/-- `TicketMessage` record (`models.py`). -/
structure TicketMessage where
  id : Int
  ticket_id : Int
  content : String
  message_type : String
  is_internal : Bool
  author_id : Int
  created_at : String
  updated_at : String
  author : Option User
  attachments : Option (List Attachment)
  custom_fields : Option (List (String × JValue))
  deriving Repr

/-- `Ticket` record (`models.py`). -/
structure Ticket where
  id : Int
  ticket_number : String
  title : String
  description : String
  status : String
  priority : String
  type : String
  queue_id : Int
  customer_id : Int
  assigned_to : Option Int
  created_at : String
  updated_at : String
  closed_at : Option String
  tags : Option (List String)
  custom_fields : Option (List (String × JValue))
  customer : Option User
  assigned_user : Option User
  queue : Option Queue
  messages : Option (List TicketMessage)
  attachments : Option (List Attachment)
  deriving Repr

/-- `TicketCreateRequest` record (`models.py`). -/
structure TicketCreateRequest where
  title : String
  description : String
  priority : Option String
  type : Option String
  queue_id : Option Int
  customer_id : Option Int
  assigned_to : Option Int
  tags : Option (List String)
  custom_fields : Option (List (String × JValue))
  deriving Repr

/-- `UserCreateRequest` record (`models.py`). -/
structure UserCreateRequest where
  email : String
  first_name : String
  last_name : String
  login : String
  title : Option String
  role : Option String
  password : String
  deriving Repr, DecidableEq

/-- Extraction helpers reading a validated payload into record fields. -/
def asInt : Option JValue → Int
  | some (.jInt n) => n
  | _ => 0

def asStr : Option JValue → String
  | some (.jStr s) => s
  | _ => ""

def asBool : Option JValue → Bool
  | some (.jBool b) => b
  | _ => false

def asOptInt : Option JValue → Option Int
  | some (.jInt n) => some n
  | _ => none

def asOptStr : Option JValue → Option String
  | some (.jStr s) => some s
  | _ => none

def asOptStrList : Option JValue → Option (List String)
  | some (.jList xs) => some (xs.map (fun v => asStr (some v)))
  | _ => none

def asOptDict : Option JValue → Option (List (String × JValue))
  | some (.jDict kvs) => some kvs
  | _ => none

def asDict : JValue → List (String × JValue)
  | .jDict kvs => kvs
  | _ => []

/-- Build a `User` from a validated payload. -/
def buildUser (kvs : List (String × JValue)) : User :=
  { id := asInt (lookupField kvs "id")
    email := asStr (lookupField kvs "email")
    first_name := asStr (lookupField kvs "first_name")
    last_name := asStr (lookupField kvs "last_name")
    login := asStr (lookupField kvs "login")
    title := asStr (lookupField kvs "title")
    role := asStr (lookupField kvs "role")
    is_active := asBool (lookupField kvs "is_active")
    created_at := asStr (lookupField kvs "created_at")
    updated_at := asStr (lookupField kvs "updated_at")
    last_login_at := asStr (lookupField kvs "last_login_at") }

/-- Build a `Queue` from a validated payload. -/
def buildQueue (kvs : List (String × JValue)) : Queue :=
  { id := asInt (lookupField kvs "id")
    name := asStr (lookupField kvs "name")
    description := asStr (lookupField kvs "description")
    is_active := asBool (lookupField kvs "is_active")
    created_at := asStr (lookupField kvs "created_at")
    updated_at := asStr (lookupField kvs "updated_at") }

/-- Build an `Attachment` from a validated payload. -/
def buildAttachment (kvs : List (String × JValue)) : Attachment :=
  { id := asInt (lookupField kvs "id")
    filename := asStr (lookupField kvs "filename")
    content_type := asStr (lookupField kvs "content_type")
    size := asInt (lookupField kvs "size")
    ticket_id := asInt (lookupField kvs "ticket_id")
    message_id := asOptInt (lookupField kvs "message_id")
    uploaded_by := asInt (lookupField kvs "uploaded_by")
    created_at := asStr (lookupField kvs "created_at") }

/-- Build a nested optional record field. -/
def asOptNested {α : Type} (build : List (String × JValue) → α)
    (v : Option JValue) : Option α :=
  match v with
  | some (.jDict kvs) => some (build kvs)
  | _ => none

/-- Build a nested optional list-of-records field. -/
def asOptNestedList {α : Type} (build : List (String × JValue) → α)
    (v : Option JValue) : Option (List α) :=
  match v with
  | some (.jList xs) => some (xs.map (fun x => build (asDict x)))
  | _ => none

/-- Build a `TicketMessage` from a validated payload. -/
def buildTicketMessage (kvs : List (String × JValue)) : TicketMessage :=
  { id := asInt (lookupField kvs "id")
    ticket_id := asInt (lookupField kvs "ticket_id")
    content := asStr (lookupField kvs "content")
    message_type := asStr (lookupField kvs "message_type")
    is_internal := asBool (lookupField kvs "is_internal")
    author_id := asInt (lookupField kvs "author_id")
    created_at := asStr (lookupField kvs "created_at")
    updated_at := asStr (lookupField kvs "updated_at")
    author := asOptNested buildUser (lookupField kvs "author")
    attachments := asOptNestedList buildAttachment (lookupField kvs "attachments")
    custom_fields := asOptDict (lookupField kvs "custom_fields") }

/-- Build a `Ticket` from a validated payload. -/
def buildTicket (kvs : List (String × JValue)) : Ticket :=
  { id := asInt (lookupField kvs "id")
    ticket_number := asStr (lookupField kvs "ticket_number")
    title := asStr (lookupField kvs "title")
    description := asStr (lookupField kvs "description")
    status := asStr (lookupField kvs "status")
    priority := asStr (lookupField kvs "priority")
    type := asStr (lookupField kvs "type")
    queue_id := asInt (lookupField kvs "queue_id")
    customer_id := asInt (lookupField kvs "customer_id")
    assigned_to := asOptInt (lookupField kvs "assigned_to")
    created_at := asStr (lookupField kvs "created_at")
    updated_at := asStr (lookupField kvs "updated_at")
    closed_at := asOptStr (lookupField kvs "closed_at")
    tags := asOptStrList (lookupField kvs "tags")
    custom_fields := asOptDict (lookupField kvs "custom_fields")
    customer := asOptNested buildUser (lookupField kvs "customer")
    assigned_user := asOptNested buildUser (lookupField kvs "assigned_user")
    queue := asOptNested buildQueue (lookupField kvs "queue")
    messages := asOptNestedList buildTicketMessage (lookupField kvs "messages")
    attachments := asOptNestedList buildAttachment (lookupField kvs "attachments") }

/-- Construct a `Ticket` from a payload: validate, then build — or raise
`ValidationError`. -/
def decodeTicket (kvs : List (String × JValue)) : Except GFError Ticket :=
  if validateModel ticketFields kvs then .ok (buildTicket kvs)
  else .error (.validationError "invalid Ticket payload")

/-- Build a `TicketCreateRequest` from a validated payload, applying the
declared defaults for absent optional fields. -/
def buildTicketCreateRequest (kvs : List (String × JValue)) : TicketCreateRequest :=
  { title := asStr (lookupField kvs "title")
    description := asStr (lookupField kvs "description")
    priority := match lookupField kvs "priority" with
      | none => some "normal"
      | some v => asOptStr (some v)
    type := match lookupField kvs "type" with
      | none => some "incident"
      | some v => asOptStr (some v)
    queue_id := asOptInt (lookupField kvs "queue_id")
    customer_id := asOptInt (lookupField kvs "customer_id")
    assigned_to := asOptInt (lookupField kvs "assigned_to")
    tags := asOptStrList (lookupField kvs "tags")
    custom_fields := asOptDict (lookupField kvs "custom_fields") }

/-- Construct a `TicketCreateRequest` from a payload. -/
def decodeTicketCreateRequest (kvs : List (String × JValue)) :
    Except GFError TicketCreateRequest :=
  if validateModel ticketCreateRequestFields kvs then
    .ok (buildTicketCreateRequest kvs)
  else .error (.validationError "invalid TicketCreateRequest payload")

/-- Build a `UserCreateRequest` from a validated payload, applying the
declared defaults for absent optional fields. -/
def buildUserCreateRequest (kvs : List (String × JValue)) : UserCreateRequest :=
  { email := asStr (lookupField kvs "email")
    first_name := asStr (lookupField kvs "first_name")
    last_name := asStr (lookupField kvs "last_name")
    login := asStr (lookupField kvs "login")
    title := match lookupField kvs "title" with
      | none => some ""
      | some v => asOptStr (some v)
    role := match lookupField kvs "role" with
      | none => some "user"
      | some v => asOptStr (some v)
    password := asStr (lookupField kvs "password") }

/-- Construct a `UserCreateRequest` from a payload. -/
def decodeUserCreateRequest (kvs : List (String × JValue)) :
    Except GFError UserCreateRequest :=
  if validateModel userCreateRequestFields kvs then
    .ok (buildUserCreateRequest kvs)
  else .error (.validationError "invalid UserCreateRequest payload")

/-- Encoding helpers mirroring pydantic serialization of optionals. -/
def jOptStr : Option String → JValue
  | some s => .jStr s
  | none => .jNull

def jOptInt : Option Int → JValue
  | some n => .jInt n
  | none => .jNull

def jOptStrList : Option (List String) → JValue
  | some xs => .jList (xs.map .jStr)
  | none => .jNull

def jOptDict : Option (List (String × JValue)) → JValue
  | some kvs => .jDict kvs
  | none => .jNull

/-- `model_dump` of a `TicketCreateRequest`: the request body sent by
`tickets.create`. -/
def encodeTicketCreateRequest (r : TicketCreateRequest) : List (String × JValue) :=
  [("title", .jStr r.title), ("description", .jStr r.description),
   ("priority", jOptStr r.priority), ("type", jOptStr r.type),
   ("queue_id", jOptInt r.queue_id), ("customer_id", jOptInt r.customer_id),
   ("assigned_to", jOptInt r.assigned_to), ("tags", jOptStrList r.tags),
   ("custom_fields", jOptDict r.custom_fields)]

/-- `TicketListResponse` record (`models.py`): the paginated envelope
`{tickets, total_count, page, page_size, total_pages}`. -/
structure TicketListResponse where
  tickets : List Ticket
  total_count : Nat
  page : Nat
  page_size : Nat
  total_pages : Nat
  deriving Repr

/-- Modelled from the spec: the `list` operation's pagination arithmetic
(§4.3).  The resource-client code (`client.py`) is not among the sources;
the spec requires the client to compute
`total_pages = ceil(total_count / page_size)` itself. -/
def computeTotalPages (total_count page_size : Nat) : Nat :=
  (total_count + page_size - 1) / page_size

/-- Modelled from the spec: `tickets.list` builds the envelope from the
server's `{items, total_count, page, page_size}` success payload (§6),
which carries no `total_pages`; the client fills it in. -/
def buildTicketListResponse (items : List Ticket)
    (total_count page page_size : Nat) : TicketListResponse :=
  { tickets := items
    total_count := total_count
    page := page
    page_size := page_size
    total_pages := computeTotalPages total_count page_size }

/-- An HTTP request descriptor (§3). -/
structure Request where
  method : String
  path : String
  headers : List (String × String)
  body : Option JValue
  deriving Repr

/-- Modelled from the spec: the Static-key strategy (`APIKeyAuth`,
§4.1); `auth.py` is not among the sources. -/
structure APIKeyAuth where
  api_key : String
  deriving Repr, DecidableEq

/-- `apply`: attach the fixed static header. -/
def APIKeyAuth.applyAuth (a : APIKeyAuth) (r : Request) : Request :=
  { r with headers := ("Authorization", a.api_key) :: r.headers }

/-- The strategy's expiry probe (`is_expired`): a static key never
expires. -/
def APIKeyAuth.isExpired (_ : APIKeyAuth) : Bool := false

/-- `refresh`: a no-op success leaving the credential unchanged. -/
def APIKeyAuth.refreshCred (a : APIKeyAuth) : Except GFError APIKeyAuth := .ok a

/-- Map a non-2xx HTTP status to the error taxonomy (§7). -/
def mapStatus (st : Nat) (retryAfter : Option Nat) : Option GFError :=
  if 200 ≤ st && st < 300 then none
  else if st = 401 then some .unauthorizedError
  else if st = 403 then some .forbiddenError
  else if st = 404 then some .notFoundError
  else if st = 429 then some (.rateLimitError retryAfter)
  else some (.goatflowError st "server error")

/-- Outcome of one pipeline execution: the result (`ok k` returns the
body of dispatch number `k`), how many dispatches reached the server,
and how many refresh calls were made. -/
structure PipelineRun where
  result : Except GFError Nat
  dispatches : Nat
  refreshes : Nat
  deriving Repr

/-- Modelled from the spec: the Request Pipeline algorithm (§4.2);
`client.py` is not among the sources.  `expiredAtStart` is the
strategy's expiry report at step 1, `refreshSucceeds` whether refresh
calls succeed, `status k` the HTTP status of dispatch `k`. -/
def executeCall (expiredAtStart refreshSucceeds : Bool)
    (status : Nat → Nat) : PipelineRun :=
  if expiredAtStart && !refreshSucceeds then
    { result := .error .unauthorizedError, dispatches := 0, refreshes := 1 }
  else
    let pre : Nat := if expiredAtStart then 1 else 0
    let s0 := status 0
    if s0 = 401 then
      if refreshSucceeds then
        let s1 := status 1
        if s1 = 401 then
          { result := .error .unauthorizedError, dispatches := 2,
            refreshes := pre + 1 }
        else
          { result := match mapStatus s1 none with
              | none => .ok 1
              | some e => .error e
            dispatches := 2, refreshes := pre + 1 }
      else
        { result := .error .unauthorizedError, dispatches := 1,
          refreshes := pre + 1 }
    else
      { result := match mapStatus s0 none with
          | none => .ok 0
          | some e => .error e
        dispatches := 1, refreshes := pre }

/-- Modelled from the spec: the phases a single logical call goes
through against the shared refresh mechanism (§4.1, §5). -/
inductive CallerPhase where
  | idle : CallerPhase
  | waiting : CallerPhase
  | done : Nat → CallerPhase
  | failed : GFError → CallerPhase
  deriving Repr, DecidableEq

/-- Modelled from the spec: the shared state of a Bearer-with-refresh
strategy under concurrent calls (§4.1, §5); `auth.py` is not among the
sources.  `gen` counts credential replacements, `refreshCalls` the
refresh calls that reached the server. -/
structure AuthState where
  expired : Bool
  gen : Nat
  inFlight : Bool
  refreshCalls : Nat
  callers : List CallerPhase
  deriving Repr, DecidableEq

/-- Successor state: caller `i` finds the credential expired with no
refresh in flight, issues the one refresh call and waits on it. -/
def startState (s : AuthState) (i : Nat) : AuthState :=
  { s with inFlight := true, refreshCalls := s.refreshCalls + 1,
           callers := s.callers.set i .waiting }

/-- Successor state: caller `i` finds the credential expired with a
refresh already in flight and attaches to it without a server call. -/
def joinState (s : AuthState) (i : Nat) : AuthState :=
  { s with callers := s.callers.set i .waiting }

/-- Successor state: caller `i` finds a fresh credential and completes
with it directly. -/
def freshState (s : AuthState) (i : Nat) : AuthState :=
  { s with callers := s.callers.set i (.done s.gen) }

/-- Successor state: the in-flight refresh succeeds; the stored
credential is replaced atomically and every waiter completes with it. -/
def okState (s : AuthState) : AuthState :=
  { expired := false, gen := s.gen + 1, inFlight := false,
    refreshCalls := s.refreshCalls,
    callers := s.callers.map
      (fun c => if c = .waiting then .done (s.gen + 1) else c) }

/-- Successor state: the in-flight refresh fails; every waiter is
surfaced the same `UnauthorizedError`. -/
def failState (s : AuthState) : AuthState :=
  { s with inFlight := false,
           callers := s.callers.map
             (fun c => if c = .waiting then .failed .unauthorizedError else c) }

/-- Modelled from the spec: the single-flight refresh protocol (§4.1,
§5, design note §9): a caller that discovers an expired credential
either starts the one refresh or joins the in-flight one; a completed
refresh resolves every waiter at once, successfully with the single new
credential or with the same `UnauthorizedError` for all. -/
inductive SFStep : AuthState → AuthState → Prop where
  | startRefresh (s : AuthState) (i : Nat) :
      s.callers.get? i = some .idle → s.expired = true → s.inFlight = false →
      SFStep s (startState s i)
  | joinRefresh (s : AuthState) (i : Nat) :
      s.callers.get? i = some .idle → s.expired = true → s.inFlight = true →
      SFStep s (joinState s i)
  | useFresh (s : AuthState) (i : Nat) :
      s.callers.get? i = some .idle → s.expired = false →
      SFStep s (freshState s i)
  | refreshOk (s : AuthState) :
      s.inFlight = true → SFStep s (okState s)
  | refreshFail (s : AuthState) :
      s.inFlight = true → SFStep s (failState s)

/-- Initial state: `n` calls issued while the credential is expired,
before any refresh. -/
def initAuthState (n : Nat) : AuthState :=
  { expired := true, gen := 0, inFlight := false, refreshCalls := 0,
    callers := List.replicate n .idle }

/-- Number of callers whose refresh failed. -/
def countFailed (l : List CallerPhase) : Nat :=
  l.countP (fun c => match c with | .failed _ => true | _ => false)

/-- Number of callers attached to the in-flight refresh. -/
def countWaiting (l : List CallerPhase) : Nat :=
  l.countP (fun c => c == .waiting)

/-- Declared type of a field, if any. -/
def findFieldTy (fs : List (String × FieldTy × Bool)) (name : String) :
    Option FieldTy :=
  match fs with
  | [] => none
  | (n, t, _) :: rest => if n = name then some t else findFieldTy rest name

/-- Overwrite a field's value in a stored payload. -/
def setFieldValue (kvs : List (String × JValue)) (name : String) (v : JValue) :
    List (String × JValue) :=
  kvs.map (fun kv => if kv.1 = name then (name, v) else kv)

/-- Attribute assignment on a constructed model under
`validate_assignment=True` and `extra="forbid"` (`BaseGoatflowModel`,
`models.py`): the new value is validated against the declared field
type; if it validates the stored data is mutated in place, otherwise
`ValidationError` is raised; assigning an undeclared attribute raises. -/
def assignField (fs : List (String × FieldTy × Bool))
    (kvs : List (String × JValue)) (name : String) (v : JValue) :
    Except GFError (List (String × JValue)) :=
  match findFieldTy fs name with
  | none => .error (.validationError "no such field")
  | some t =>
      if checkTy t v then .ok (setFieldValue kvs name v)
      else .error (.validationError "assigned value failed validation")

/-- A concrete valid `Ticket` payload, used as test data. -/
def sampleTicketPayload : List (String × JValue) :=
  [("id", .jInt 1), ("ticket_number", .jStr "T-1001"),
   ("title", .jStr "Printer broken"), ("description", .jStr "It smokes"),
   ("status", .jStr "open"), ("priority", .jStr "normal"),
   ("type", .jStr "incident"), ("queue_id", .jInt 1),
   ("customer_id", .jInt 7), ("created_at", .jStr "2024-01-01T00:00:00"),
   ("updated_at", .jStr "2024-01-01T00:00:00")]

/-- A concrete create request whose `title`/`description` agree with
`sampleTicketPayload`, as a server echoing the submitted fields would
produce. -/
def sampleCreateRequest : TicketCreateRequest :=
  { title := "Printer broken", description := "It smokes",
    priority := some "normal", type := some "incident", queue_id := none,
    customer_id := none, assigned_to := none, tags := none,
    custom_fields := none }

/-- Invariant of the single-flight transition system, for `n` callers:
lengths are stable; the credential generation tracks expiry; an
in-flight refresh has at least one waiter and at least one issued call;
the server-side refresh count is bounded by one live/completed refresh
plus one per failed caller; completed calls used credential
generation 1, which exists only once the credential is fresh. -/
def sfInv (n : Nat) (s : AuthState) : Prop :=
  s.callers.length = n ∧
  (s.expired = true → s.gen = 0) ∧
  (s.expired = false → s.gen = 1 ∧ s.inFlight = false) ∧
  (s.inFlight = true → CallerPhase.waiting ∈ s.callers) ∧
  (s.inFlight = true → 1 ≤ s.refreshCalls) ∧
  s.refreshCalls ≤ countFailed s.callers + (if s.inFlight then 1 else 0) +
    (if s.expired then 0 else 1) ∧
  (∀ g, CallerPhase.done g ∈ s.callers → g = 1 ∧ s.expired = false) ∧
  (s.expired = false → 1 ≤ s.refreshCalls)

/-- The per-field validator succeeds exactly when every declared field
is either present with a well-typed value or absent and optional. -/
theorem checkObjFields_iff (fs : List (String × FieldTy × Bool))
    (kvs : List (String × JValue)) :
    checkObjFields fs kvs = true ↔
      ∀ name t req, (name, t, req) ∈ fs →
        (∀ v, lookupField kvs name = some v → checkTy t v = true) ∧
        (lookupField kvs name = none → req = false) := by
  simp only [checkObjFields, List.all_eq_true]
  constructor
  · intro h name t req hmem
    have h2 := h (name, t, req) hmem
    constructor
    · intro v hv
      simpa [hv] using h2
    · intro hnone
      simpa [hnone] using h2
  · intro h f hmem
    obtain ⟨name, t, req⟩ := f
    have h2 := h name t req hmem
    cases hl : lookupField kvs name with
    | some v => simpa [hl] using h2.1 v hl
    | none => simpa [hl] using h2.2 hl

/-- The extra-field check succeeds exactly when every payload key is a
declared field. -/
theorem extraOk_iff (fs : List (String × FieldTy × Bool))
    (kvs : List (String × JValue)) :
    extraOk fs kvs = true ↔ ∀ kv ∈ kvs, declaredField fs kv.1 = true := by
  simp [extraOk, List.all_eq_true]

/-- C2: for every Resource Record schema, construction from a payload
missing a required field fails with `ValidationError`, construction from
a payload holding an undeclared field fails with `ValidationError`, and
construction succeeds exactly when every payload key is declared and
every declared field is present with a well-typed value or absent and
optional. -/
theorem resourceRecord_validation (fs : List (String × FieldTy × Bool))
    (_hfs : fs ∈ resourceSchemas) (kvs : List (String × JValue)) :
    ((∃ name t, (name, t, true) ∈ fs ∧ lookupField kvs name = none) →
      ∃ m, constructModel fs kvs = .error (.validationError m)) ∧
    ((∃ kv ∈ kvs, declaredField fs kv.1 = false) →
      ∃ m, constructModel fs kvs = .error (.validationError m)) ∧
    (constructModel fs kvs = .ok kvs ↔
      (∀ kv ∈ kvs, declaredField fs kv.1 = true) ∧
      ∀ name t req, (name, t, req) ∈ fs →
        (∀ v, lookupField kvs name = some v → checkTy t v = true) ∧
        (lookupField kvs name = none → req = false)) := by
  have hok : constructModel fs kvs = .ok kvs ↔ validateModel fs kvs = true := by
    unfold constructModel
    constructor
    · intro h
      by_contra hv
      simp [hv] at h
    · intro h
      simp [h]
  have herr : validateModel fs kvs = false →
      ∃ m, constructModel fs kvs = .error (.validationError m) := by
    intro h
    exact ⟨"payload failed model validation", by simp [constructModel, h]⟩
  refine ⟨?_, ?_, ?_⟩
  · rintro ⟨name, t, hmem, hnone⟩
    apply herr
    by_contra hv
    have hv2 : validateModel fs kvs = true := by
      cases h : validateModel fs kvs
      · exact absurd h hv
      · rfl
    have hco : checkObjFields fs kvs = true :=
      (Bool.and_eq_true _ _ |>.mp hv2).2
    have := ((checkObjFields_iff fs kvs).mp hco name t true hmem).2 hnone
    exact Bool.true_eq_false.mp this
  · rintro ⟨kv, hkv, hundecl⟩
    apply herr
    by_contra hv
    have hv2 : validateModel fs kvs = true := by
      cases h : validateModel fs kvs
      · exact absurd h hv
      · rfl
    have hex : extraOk fs kvs = true :=
      (Bool.and_eq_true _ _ |>.mp hv2).1
    have := (extraOk_iff fs kvs).mp hex kv hkv
    rw [hundecl] at this
    exact Bool.false_ne_true this
  · rw [hok]
    unfold validateModel
    rw [Bool.and_eq_true, extraOk_iff, checkObjFields_iff]

/-- Witness for C2: building a `User` from the empty payload (missing
the required `id`) fails with `ValidationError`; a payload with an
undeclared key fails as well; and `sampleTicketPayload` constructs. -/
theorem resourceRecord_validation_witness :
    (∃ m, constructModel userFields [] = .error (.validationError m)) ∧
    (∃ m, constructModel ticketFields (("bogus", .jNull) :: sampleTicketPayload) =
      .error (.validationError m)) ∧
    constructModel ticketFields sampleTicketPayload = .ok sampleTicketPayload := by
  refine ⟨?_, ?_, ?_⟩
  · exact (resourceRecord_validation userFields (by simp [resourceSchemas]) []).1
      ⟨"id", .tInt, by simp [userFields], rfl⟩
  · exact (resourceRecord_validation ticketFields (by simp [resourceSchemas])
      (("bogus", .jNull) :: sampleTicketPayload)).2.1
      ⟨("bogus", .jNull), by simp, rfl⟩
  · rfl

/-- C7: construction of a Resource Record has exactly two outcomes — a
fully validated record, or a `ValidationError` raised at construction
time; no partially-built record is produced. -/
theorem resourceRecord_construction_total (fs : List (String × FieldTy × Bool))
    (_hfs : fs ∈ resourceSchemas) (kvs : List (String × JValue)) :
    (constructModel fs kvs = .ok kvs ∧ validateModel fs kvs = true) ∨
    (constructModel fs kvs =
        .error (.validationError "payload failed model validation") ∧
      validateModel fs kvs = false) := by
  cases h : validateModel fs kvs
  · exact Or.inr ⟨by simp [constructModel, h], rfl⟩
  · exact Or.inl ⟨by simp [constructModel, h], rfl⟩

/-- Witness for C7: the two outcomes at two concrete payloads. -/
theorem resourceRecord_construction_total_witness :
    ((constructModel ticketFields sampleTicketPayload = .ok sampleTicketPayload ∧
        validateModel ticketFields sampleTicketPayload = true) ∨
      (constructModel ticketFields sampleTicketPayload =
          .error (.validationError "payload failed model validation") ∧
        validateModel ticketFields sampleTicketPayload = false)) ∧
    ((constructModel queueFields [] = .ok [] ∧ validateModel queueFields [] = true) ∨
      (constructModel queueFields [] =
          .error (.validationError "payload failed model validation") ∧
        validateModel queueFields [] = false)) :=
  ⟨resourceRecord_construction_total ticketFields (by simp [resourceSchemas])
      sampleTicketPayload,
    resourceRecord_construction_total queueFields (by simp [resourceSchemas]) []⟩

/-- Counterexample for C5: a constructed (validated) `Ticket` record is
not immutable — assigning a well-typed value to `title` succeeds under
`validate_assignment=True` and changes the stored field (the model
configuration does not set `frozen`). -/
theorem record_assignment_mutates_cex :
    validateModel ticketFields sampleTicketPayload = true ∧
    assignField ticketFields sampleTicketPayload "title" (.jStr "changed") =
      .ok (setFieldValue sampleTicketPayload "title" (.jStr "changed")) ∧
    lookupField (setFieldValue sampleTicketPayload "title" (.jStr "changed"))
      "title" = some (.jStr "changed") ∧
    lookupField sampleTicketPayload "title" = some (.jStr "Printer broken") :=
  ⟨rfl, rfl, rfl, rfl⟩

/-- C5 (amended): Resource Records are not frozen; field assignment is
validated.  For every Resource Record schema, assigning a well-typed
value to a declared field succeeds and mutates the stored field,
assigning an ill-typed value raises `ValidationError`, and assigning an
undeclared attribute raises `ValidationError` (`extra="forbid"`). -/
theorem record_assignment_validated (fs : List (String × FieldTy × Bool))
    (_hfs : fs ∈ resourceSchemas) (kvs : List (String × JValue))
    (name : String) (v : JValue) (t : FieldTy)
    (ht : findFieldTy fs name = some t) :
    (checkTy t v = true →
      assignField fs kvs name v = .ok (setFieldValue kvs name v)) ∧
    (checkTy t v = false →
      assignField fs kvs name v =
        .error (.validationError "assigned value failed validation")) ∧
    (∀ name2, findFieldTy fs name2 = none →
      assignField fs kvs name2 v =
        .error (.validationError "no such field")) := by
  refine ⟨?_, ?_, ?_⟩
  · intro hc
    simp [assignField, ht, hc]
  · intro hc
    simp [assignField, ht, hc]
  · intro name2 hn
    simp [assignField, hn]

/-- Witness for C5 (amended): a well-typed assignment to a `Ticket`'s
`title` succeeds, an integer assigned to a `User`'s `email` fails, and
an undeclared attribute on a `Queue` fails. -/
theorem record_assignment_validated_witness :
    (assignField ticketFields sampleTicketPayload "title" (.jStr "x") =
      .ok (setFieldValue sampleTicketPayload "title" (.jStr "x"))) ∧
    (assignField userFields [] "email" (.jInt 3) =
      .error (.validationError "assigned value failed validation")) ∧
    (assignField queueFields [] "bogus" (.jStr "x") =
      .error (.validationError "no such field")) :=
  ⟨(record_assignment_validated ticketFields (by simp [resourceSchemas])
      sampleTicketPayload "title" (.jStr "x") .tStr rfl).1 rfl,
    (record_assignment_validated userFields (by simp [resourceSchemas])
      [] "email" (.jInt 3) .tStr rfl).2.1 rfl,
    (record_assignment_validated queueFields (by simp [resourceSchemas])
      [] "id" (.jStr "x") .tInt rfl).2.2 "bogus" rfl⟩

/-- C6: if the server's created-ticket response echoes the submitted
`title` and `description` of the encoded `TicketCreateRequest`, the
decoded `Ticket` carries exactly the request's `title` and
`description`. -/
theorem ticketCreateRequest_roundtrip (r : TicketCreateRequest)
    (resp : List (String × JValue)) (t : Ticket)
    (hT : lookupField resp "title" =
      lookupField (encodeTicketCreateRequest r) "title")
    (hD : lookupField resp "description" =
      lookupField (encodeTicketCreateRequest r) "description")
    (hdec : decodeTicket resp = .ok t) :
    t.title = r.title ∧ t.description = r.description := by
  have hbuild : t = buildTicket resp := by
    unfold decodeTicket at hdec
    split at hdec
    · exact (Except.ok.injEq _ _ |>.mp hdec).symm
    · exact absurd hdec (by simp)
  have hT2 : lookupField resp "title" = some (.jStr r.title) := hT
  have hD2 : lookupField resp "description" = some (.jStr r.description) := hD
  subst hbuild
  constructor
  · show asStr (lookupField resp "title") = r.title
    rw [hT2]
    rfl
  · show asStr (lookupField resp "description") = r.description
    rw [hD2]
    rfl

/-- Witness for C6: `sampleTicketPayload` echoes `sampleCreateRequest`
and decodes to a ticket with the request's `title`/`description`. -/
theorem ticketCreateRequest_roundtrip_witness :
    (buildTicket sampleTicketPayload).title = sampleCreateRequest.title ∧
    (buildTicket sampleTicketPayload).description =
      sampleCreateRequest.description :=
  ticketCreateRequest_roundtrip sampleCreateRequest sampleTicketPayload
    (buildTicket sampleTicketPayload) rfl rfl rfl

/-- C9: constructing a `TicketCreateRequest` from a payload holding only
`title` and `description` succeeds, and the omitted optional fields take
their declared defaults: `priority` becomes `"normal"` and `type`
becomes `"incident"` (present values, not absence). -/
theorem ticketCreateRequest_defaults (title description : String) :
    decodeTicketCreateRequest
        [("title", .jStr title), ("description", .jStr description)] =
      .ok { title := title, description := description,
            priority := some "normal", type := some "incident",
            queue_id := none, customer_id := none, assigned_to := none,
            tags := none, custom_fields := none } := rfl

/-- C10: constructing a `UserCreateRequest` from any payload whose
`password` is a string of fewer than 8 characters fails with
`ValidationError` whatever the other fields hold; with all required
fields present and well-typed and a password of at least 8 characters,
construction succeeds (with the declared defaults for `title`/`role`). -/
theorem userCreateRequest_password_policy :
    (∀ kvs s, lookupField kvs "password" = some (.jStr s) → s.length < 8 →
      decodeUserCreateRequest kvs =
        .error (.validationError "invalid UserCreateRequest payload")) ∧
    (∀ email fn ln login pw : String, 8 ≤ pw.length →
      decodeUserCreateRequest
          [("email", .jStr email), ("first_name", .jStr fn),
           ("last_name", .jStr ln), ("login", .jStr login),
           ("password", .jStr pw)] =
        .ok { email := email, first_name := fn, last_name := ln,
              login := login, title := some "", role := some "user",
              password := pw }) := by
  constructor
  · intro kvs s hpw hlen
    have hv : validateModel userCreateRequestFields kvs = false := by
      cases hvv : validateModel userCreateRequestFields kvs
      · rfl
      · exfalso
        have hco : checkObjFields userCreateRequestFields kvs = true :=
          (Bool.and_eq_true _ _ |>.mp hvv).2
        have hmem : ("password", FieldTy.tStrMin 8, true) ∈
            userCreateRequestFields := by
          simp [userCreateRequestFields]
        have hchk := ((checkObjFields_iff _ kvs).mp hco "password"
          (FieldTy.tStrMin 8) true hmem).1 _ hpw
        have hdec : decide (8 ≤ s.length) = true := hchk
        have h8 : 8 ≤ s.length := of_decide_eq_true hdec
        omega
    simp [decodeUserCreateRequest, hv]
  · intro email fn ln login pw hlen
    have hd : decide (8 ≤ pw.length) = true := decide_eq_true hlen
    have hv : validateModel userCreateRequestFields
        [("email", .jStr email), ("first_name", .jStr fn),
         ("last_name", .jStr ln), ("login", .jStr login),
         ("password", .jStr pw)] = true := by
      show (decide (8 ≤ pw.length) && true) = true
      rw [hd]
      rfl
    simp only [decodeUserCreateRequest, hv, if_true]
    rfl

/-- Witness for C10: a 5-character password is rejected; an 8+-character
password with the required fields constructs. -/
theorem userCreateRequest_password_policy_witness :
    decodeUserCreateRequest
        [("email", .jStr "a@b.c"), ("first_name", .jStr "Ann"),
         ("last_name", .jStr "Lee"), ("login", .jStr "alee"),
         ("password", .jStr "short")] =
      .error (.validationError "invalid UserCreateRequest payload") ∧
    decodeUserCreateRequest
        [("email", .jStr "a@b.c"), ("first_name", .jStr "Ann"),
         ("last_name", .jStr "Lee"), ("login", .jStr "alee"),
         ("password", .jStr "longenough")] =
      .ok { email := "a@b.c", first_name := "Ann", last_name := "Lee",
            login := "alee", title := some "", role := some "user",
            password := "longenough" } :=
  ⟨userCreateRequest_password_policy.1 _ "short" rfl (by decide),
    userCreateRequest_password_policy.2 "a@b.c" "Ann" "Lee" "alee"
      "longenough" (by decide)⟩

/-- C8: the Static-key strategy attaches the same fixed header to every
request and touches nothing else; `is_expired` is false on every
invocation; `refresh` is a no-op success leaving the credential
unchanged. -/
theorem staticKey_strategy (a : APIKeyAuth) (req : Request) :
    (a.applyAuth req).headers = ("Authorization", a.api_key) :: req.headers ∧
    (a.applyAuth req).method = req.method ∧
    (a.applyAuth req).path = req.path ∧
    (a.applyAuth req).body = req.body ∧
    a.isExpired = false ∧
    a.refreshCred = .ok a :=
  ⟨rfl, rfl, rfl, rfl, rfl, rfl⟩

/-- C3: the pipeline never makes a third dispatch; two consecutive 401s
surface as `UnauthorizedError`; and a first 401 with a succeeding
refresh leads to exactly one forced refresh-and-retry (two dispatches,
at least one refresh). -/
theorem pipeline_401_single_retry (e r : Bool) (status : Nat → Nat) :
    (executeCall e r status).dispatches ≤ 2 ∧
    (status 0 = 401 → status 1 = 401 →
      (executeCall e r status).result = .error .unauthorizedError) ∧
    (status 0 = 401 → r = true →
      (executeCall e r status).dispatches = 2 ∧
      1 ≤ (executeCall e r status).refreshes) := by
  by_cases h0 : status 0 = 401 <;> by_cases h1 : status 1 = 401 <;>
    cases e <;> cases r <;>
      simp [executeCall, h0, h1, mapStatus]

/-- Witness for C3: a server that always answers 401 — one forced
refresh, a single retry, `UnauthorizedError`, two dispatches. -/
theorem pipeline_401_single_retry_witness :
    (executeCall false true (fun _ => 401)).dispatches ≤ 2 ∧
    (executeCall false true (fun _ => 401)).result =
      .error .unauthorizedError ∧
    (executeCall false true (fun _ => 401)).dispatches = 2 ∧
    1 ≤ (executeCall false true (fun _ => 401)).refreshes := by
  obtain ⟨h1, h2, h3⟩ := pipeline_401_single_retry false true (fun _ => 401)
  exact ⟨h1, h2 rfl rfl, (h3 rfl rfl).1, (h3 rfl rfl).2⟩

/-- C4: the paginated envelope built by `list` carries
`total_pages = ceil(total_count / page_size)`, computed by the client
from the server's `{items, total_count, page, page_size}` payload. -/
theorem listResponse_totalPages (items : List Ticket) (c page p : Nat)
    (hp : 0 < p) :
    ((buildTicketListResponse items c page p).total_pages : ℤ) =
      ⌈(c : ℚ) / (p : ℚ)⌉ := by
  have hq : p * ((c + p - 1) / p) + (c + p - 1) % p = c + p - 1 :=
    Nat.div_add_mod (c + p - 1) p
  have hr : (c + p - 1) % p < p := Nat.mod_lt _ hp
  have hle : c ≤ ((c + p - 1) / p) * p := by
    rw [Nat.mul_comm]
    generalize hpq : p * ((c + p - 1) / p) = pq at hq
    omega
  have hlt : ((c + p - 1) / p) * p < c + p := by
    rw [Nat.mul_comm]
    generalize hpq : p * ((c + p - 1) / p) = pq at hq
    omega
  have hp' : (0 : ℚ) < (p : ℚ) := by exact_mod_cast hp
  show (((c + p - 1) / p : ℕ) : ℤ) = ⌈(c : ℚ) / (p : ℚ)⌉
  symm
  rw [Int.ceil_eq_iff]
  constructor
  · rw [Int.cast_natCast, lt_div_iff₀ hp']
    have hcast : (((c + p - 1) / p : ℕ) : ℚ) * (p : ℚ) < (c : ℚ) + (p : ℚ) := by
      exact_mod_cast hlt
    have hexp : ((((c + p - 1) / p : ℕ) : ℚ) - 1) * (p : ℚ) =
        (((c + p - 1) / p : ℕ) : ℚ) * (p : ℚ) - (p : ℚ) := by ring
    rw [hexp]
    linarith
  · rw [Int.cast_natCast, div_le_iff₀ hp']
    exact_mod_cast hle

/-- Witness for C4: the spec's end-to-end scenario — `total_count=120`,
`page_size=50` gives `total_pages = 3 = ceil(120/50)`. -/
theorem listResponse_totalPages_witness :
    ((buildTicketListResponse [] 120 1 50).total_pages : ℤ) =
      ⌈(120 : ℚ) / (50 : ℚ)⌉ ∧
    (buildTicketListResponse [] 120 1 50).total_pages = 3 :=
  ⟨listResponse_totalPages [] 120 1 50 (by decide), rfl⟩

/-- An element written at a valid index is a member of the result. -/
theorem mem_set_self {α : Type} (l : List α) (i : Nat) (a : α)
    (h : i < l.length) : a ∈ l.set i a :=
  List.get?_mem (List.get?_set_eq_of_lt a h)

/-- Membership survives overwriting an index that holds a different
element. -/
theorem mem_set_of_ne {α : Type} {l : List α} {i : Nat} {a b : α} (c : α)
    (ha : a ∈ l) (hb : l.get? i = some b) (hab : a ≠ b) : a ∈ l.set i c := by
  obtain ⟨j, hj⟩ := List.mem_iff_get?.mp ha
  have hji : j ≠ i := by
    intro h
    rw [h, hb] at hj
    exact hab (Option.some.inj hj).symm
  exact List.get?_mem (by rw [List.get?_set_ne c l (Ne.symm hji)]; exact hj)

/-- Overwriting a non-failed slot with a non-failed phase keeps the
failed count. -/
theorem countFailed_set (l : List CallerPhase) (i : Nat) (b c : CallerPhase)
    (hb : l.get? i = some b)
    (hbf : ∀ e, b ≠ CallerPhase.failed e) (hcf : ∀ e, c ≠ CallerPhase.failed e) :
    countFailed (l.set i c) = countFailed l := by
  induction l generalizing i with
  | nil => rfl
  | cons x xs ih =>
      cases i with
      | zero =>
          have hxb : x = b := Option.some.inj hb
          subst hxb
          show countFailed (c :: xs) = countFailed (x :: xs)
          unfold countFailed
          rw [List.countP_cons, List.countP_cons]
          cases c with
          | failed e => exact absurd rfl (hcf e)
          | idle => cases x with
            | failed e => exact absurd rfl (hbf e)
            | _ => rfl
          | waiting => cases x with
            | failed e => exact absurd rfl (hbf e)
            | _ => rfl
          | done g => cases x with
            | failed e => exact absurd rfl (hbf e)
            | _ => rfl
      | succ j =>
          show countFailed (x :: xs.set j c) = countFailed (x :: xs)
          unfold countFailed
          rw [List.countP_cons, List.countP_cons]
          have := ih j hb
          unfold countFailed at this
          rw [this]

/-- Resolving every waiter successfully keeps the failed count. -/
theorem countFailed_map_done (l : List CallerPhase) (k : Nat) :
    countFailed (l.map
      (fun c => if c = CallerPhase.waiting then CallerPhase.done k else c)) =
      countFailed l := by
  induction l with
  | nil => rfl
  | cons x xs ih =>
      rw [List.map_cons]
      unfold countFailed
      rw [List.countP_cons, List.countP_cons]
      unfold countFailed at ih
      rw [ih]
      by_cases hx : x = CallerPhase.waiting
      · subst hx; rfl
      · rw [if_neg hx]

/-- Failing every waiter raises the failed count by the waiter count. -/
theorem countFailed_map_failed (l : List CallerPhase) (e : GFError) :
    countFailed (l.map
      (fun c => if c = CallerPhase.waiting then CallerPhase.failed e else c)) =
      countFailed l + countWaiting l := by
  induction l with
  | nil => rfl
  | cons x xs ih =>
      rw [List.map_cons]
      unfold countFailed countWaiting
      rw [List.countP_cons, List.countP_cons, List.countP_cons]
      unfold countFailed countWaiting at ih
      rw [ih]
      by_cases hx : x = CallerPhase.waiting
      · subst hx
        simp
        omega
      · rw [if_neg hx]
        have hw : (x == CallerPhase.waiting) = false := by
          cases x <;> simp_all
        rw [hw]
        cases x
        all_goals simp
        all_goals omega

/-- A present waiter makes the waiter count positive. -/
theorem countWaiting_pos (l : List CallerPhase)
    (h : CallerPhase.waiting ∈ l) : 1 ≤ countWaiting l := by
  unfold countWaiting
  exact List.countP_pos_iff.mpr ⟨_, h, rfl⟩

/-- The single-flight invariant holds initially. -/
theorem sfInv_init (n : Nat) : sfInv n (initAuthState n) := by
  refine ⟨?_, ?_, ?_, ?_, ?_, ?_, ?_, ?_⟩
  · simp [initAuthState]
  · intro _; rfl
  · intro h; simp [initAuthState] at h
  · intro h; simp [initAuthState] at h
  · intro h; simp [initAuthState] at h
  · simp [initAuthState]
  · intro g hmem
    have := List.eq_of_mem_replicate hmem
    simp at this
  · intro h; simp [initAuthState] at h

/-- Every single-flight transition preserves the invariant. -/
theorem sfInv_step {n : Nat} {s s' : AuthState} (hinv : sfInv n s)
    (hstep : SFStep s s') : sfInv n s' := by
  obtain ⟨h0, h1, h2, h3, h4, h5, h6, h7⟩ := hinv
  cases hstep with
  | startRefresh i hget hexp hinf =>
      have hlt : i < s.callers.length := (List.get?_eq_some.mp hget).1
      refine ⟨?_, ?_, ?_, ?_, ?_, ?_, ?_, ?_⟩
      · simp [startState, List.length_set, h0]
      · intro _; exact h1 hexp
      · intro h; simp only [startState] at h; rw [hexp] at h; cases h
      · intro _
        exact mem_set_self _ i _ hlt
      · intro _
        show 1 ≤ s.refreshCalls + 1
        omega
      · show s.refreshCalls + 1 ≤
          countFailed (s.callers.set i .waiting) + (if true then 1 else 0) +
            (if s.expired then 0 else 1)
        rw [countFailed_set s.callers i .idle .waiting hget (by intro e h; cases h)
          (by intro e h; cases h), hexp]
        rw [hexp, hinf] at h5
        simp at h5 ⊢
        omega
      · intro g hmem
        rcases List.mem_or_eq_of_mem_set hmem with hold | hnew
        · have := (h6 g hold).2
          rw [hexp] at this
          cases this
        · cases hnew
      · intro _
        show 1 ≤ s.refreshCalls + 1
        omega
  | joinRefresh i hget hexp hinf =>
      have hlt : i < s.callers.length := (List.get?_eq_some.mp hget).1
      refine ⟨?_, ?_, ?_, ?_, ?_, ?_, ?_, ?_⟩
      · simp [joinState, List.length_set, h0]
      · intro _; exact h1 hexp
      · intro h; simp only [joinState] at h; rw [hexp] at h; cases h
      · intro _
        exact mem_set_self _ i _ hlt
      · intro _
        exact h4 hinf
      · show s.refreshCalls ≤
          countFailed (s.callers.set i .waiting) + (if s.inFlight then 1 else 0) +
            (if s.expired then 0 else 1)
        rw [countFailed_set s.callers i .idle .waiting hget (by intro e h; cases h)
          (by intro e h; cases h)]
        exact h5
      · intro g hmem
        rcases List.mem_or_eq_of_mem_set hmem with hold | hnew
        · have := (h6 g hold).2
          rw [hexp] at this
          cases this
        · cases hnew
      · intro h; simp only [joinState] at h; rw [hexp] at h; cases h
  | useFresh i hget hfresh =>
      have hlt : i < s.callers.length := (List.get?_eq_some.mp hget).1
      refine ⟨?_, ?_, ?_, ?_, ?_, ?_, ?_, ?_⟩
      · simp [freshState, List.length_set, h0]
      · intro h; simp only [freshState] at h; rw [hfresh] at h; cases h
      · intro _; exact h2 hfresh
      · intro hf
        exact mem_set_of_ne _ (h3 hf) hget (by intro h; cases h)
      · intro hf; exact h4 hf
      · show s.refreshCalls ≤
          countFailed (s.callers.set i (.done s.gen)) +
            (if s.inFlight then 1 else 0) + (if s.expired then 0 else 1)
        rw [countFailed_set s.callers i .idle (.done s.gen) hget
          (by intro e h; cases h) (by intro e h; cases h)]
        exact h5
      · intro g hmem
        rcases List.mem_or_eq_of_mem_set hmem with hold | hnew
        · exact h6 g hold
        · have hg : g = s.gen := by cases hnew; rfl
          rw [hg, (h2 hfresh).1]
          exact ⟨rfl, hfresh⟩
      · intro _; exact h7 hfresh
  | refreshOk hinf =>
      have hexp : s.expired = true := by
        cases hse : s.expired
        · have := (h2 hse).2
          rw [hinf] at this
          cases this
        · rfl
      refine ⟨?_, ?_, ?_, ?_, ?_, ?_, ?_, ?_⟩
      · simp [okState, h0]
      · intro h; cases h
      · intro _
        refine ⟨?_, rfl⟩
        show s.gen + 1 = 1
        rw [h1 hexp]
      · intro h; cases h
      · intro h; cases h
      · show s.refreshCalls ≤
          countFailed (s.callers.map
            (fun c => if c = .waiting then .done (s.gen + 1) else c)) +
            (if false then 1 else 0) + (if false then 0 else 1)
        rw [countFailed_map_done]
        rw [hexp, hinf] at h5
        simp at h5 ⊢
        omega
      · intro g hmem
        rcases List.mem_map.mp hmem with ⟨c, hc, hsub⟩
        refine ⟨?_, rfl⟩
        by_cases hcw : c = CallerPhase.waiting
        · rw [if_pos hcw] at hsub
          have hg : g = s.gen + 1 := by cases hsub; rfl
          rw [hg, h1 hexp]
        · rw [if_neg hcw] at hsub
          rw [hsub] at hc
          have := (h6 g hc).2
          rw [hexp] at this
          cases this
      · intro _
        exact h4 hinf
  | refreshFail hinf =>
      have hexp : s.expired = true := by
        cases hse : s.expired
        · have := (h2 hse).2
          rw [hinf] at this
          cases this
        · rfl
      refine ⟨?_, ?_, ?_, ?_, ?_, ?_, ?_, ?_⟩
      · simp [failState, h0]
      · intro _; exact h1 hexp
      · intro h; simp only [failState] at h; rw [hexp] at h; cases h
      · intro h; simp only [failState] at h; cases h
      · intro h; simp only [failState] at h; cases h
      · show s.refreshCalls ≤
          countFailed (s.callers.map
            (fun c => if c = .waiting then .failed .unauthorizedError else c)) +
            (if false then 1 else 0) + (if s.expired then 0 else 1)
        rw [countFailed_map_failed]
        have hw : 1 ≤ countWaiting s.callers := countWaiting_pos _ (h3 hinf)
        rw [hexp, hinf] at h5
        rw [hexp]
        simp at h5 ⊢
        omega
      · intro g hmem
        rcases List.mem_map.mp hmem with ⟨c, hc, hsub⟩
        by_cases hcw : c = CallerPhase.waiting
        · rw [if_pos hcw] at hsub
          cases hsub
        · rw [if_neg hcw] at hsub
          rw [hsub] at hc
          have := (h6 g hc).2
          rw [hexp] at this
          cases this
      · intro h; simp only [failState] at h; rw [hexp] at h; cases h

/-- The single-flight invariant holds in every reachable state. -/
theorem sfInv_reachable {n : Nat} {s : AuthState}
    (h : Relation.ReflTransGen SFStep (initAuthState n) s) : sfInv n s := by
  induction h with
  | refl => exact sfInv_init n
  | tail _ hbc ih => exact sfInv_step ih hbc

/-- C1: starting from `n ≥ 1` calls issued while the credential is
expired, in every reachable state in which all `n` calls completed,
exactly one refresh call reached the server and every call completed
with the single refreshed credential (generation 1); moreover, on a
failed refresh every waiting caller is surfaced the same
`UnauthorizedError`. -/
theorem singleFlight_refresh (n : Nat) (hn : 1 ≤ n) (s : AuthState)
    (hreach : Relation.ReflTransGen SFStep (initAuthState n) s)
    (hdone : ∀ c ∈ s.callers, ∃ g, c = CallerPhase.done g) :
    (s.refreshCalls = 1 ∧ ∀ c ∈ s.callers, c = CallerPhase.done 1) ∧
    (∀ u u' : AuthState, SFStep u u' → u.inFlight = true →
      u'.inFlight = false → u'.expired = true →
      ∀ i, u.callers.get? i = some CallerPhase.waiting →
        u'.callers.get? i = some (CallerPhase.failed .unauthorizedError)) := by
  constructor
  · obtain ⟨h0, h1, h2, h3, h4, h5, h6, h7⟩ := sfInv_reachable hreach
    have hcf : countFailed s.callers = 0 := by
      unfold countFailed
      rw [List.countP_eq_zero]
      intro a ha
      obtain ⟨g, rfl⟩ := hdone a ha
      simp
    have hpos : 0 < s.callers.length := by rw [h0]; omega
    obtain ⟨c0, hc0⟩ := List.exists_mem_of_length_pos hpos
    obtain ⟨g0, rfl⟩ := hdone c0 hc0
    have hexp : s.expired = false := (h6 g0 hc0).2
    have hinf : s.inFlight = false := (h2 hexp).2
    rw [hcf, hexp, hinf] at h5
    simp at h5
    have hge : 1 ≤ s.refreshCalls := h7 hexp
    refine ⟨by omega, ?_⟩
    intro c hc
    obtain ⟨g, rfl⟩ := hdone c hc
    rw [(h6 g hc).1]
  · intro u u' hstep hu hu' hexp' i hi
    cases hstep with
    | startRefresh j hget hexp hinf =>
        rw [hinf] at hu
        cases hu
    | joinRefresh j hget hexp hinf =>
        simp only [joinState] at hu'
        rw [hinf] at hu'
        cases hu'
    | useFresh j hget hfresh =>
        simp only [freshState] at hexp'
        rw [hfresh] at hexp'
        cases hexp'
    | refreshOk hinf =>
        simp only [okState] at hexp'
        cases hexp'
    | refreshFail hinf =>
        show ((u.callers.map
          (fun c => if c = .waiting then .failed .unauthorizedError else c)).get? i) =
            some (CallerPhase.failed .unauthorizedError)
        rw [List.get?_map, hi]
        rfl

/-- Witness for C1: two concurrent calls on an expired credential — the
first starts the refresh, the second joins it, the refresh succeeds;
one server refresh, both calls done on generation 1. -/
theorem singleFlight_refresh_witness :
    (okState (joinState (startState (initAuthState 2) 0) 1)).refreshCalls = 1 ∧
    ∀ c ∈ (okState (joinState (startState (initAuthState 2) 0) 1)).callers,
      c = CallerPhase.done 1 :=
  (singleFlight_refresh 2 (by omega)
    (okState (joinState (startState (initAuthState 2) 0) 1))
    (Relation.ReflTransGen.head (SFStep.startRefresh _ 0 rfl rfl rfl)
      (Relation.ReflTransGen.head (SFStep.joinRefresh _ 1 rfl rfl rfl)
        (Relation.ReflTransGen.head (SFStep.refreshOk _ rfl)
          Relation.ReflTransGen.refl)))
    (by
      intro c hc
      have hc2 : c ∈ [CallerPhase.done 1, CallerPhase.done 1] := hc
      simp at hc2
      exact ⟨1, hc2⟩)).1

end Goatflow
